import Mathlib

/-!
Verification of the plant-ops safety-gated actuation pipeline.

Shallow embedding of the core modules of the `ai-farm` repository:

* `src/safety.py` — the safety validator (`validate_action` and its helpers);
* `src/action_executor.py` — the action executor (`ActionExecutor.execute`,
  `_run_farmctl`, `take_photo_with_light`);
* `src/sensor_reader.py` — the soil-moisture calibration (`_soil_adc_to_pct`);
* `src/plant_agent.py` — the photo step of `run_check` (keyword-call shape).

Conventions: Python numbers are modelled as rationals (reals for the
transcendental calibration curve), ISO timestamps as rationals counting
minutes of UTC time (a failed parse is `Option.none`), Python dicts as
structures over the keys the code actually reads, and the existence of the
emergency-stop file as an explicit boolean input.
-/

namespace PlantOps

/-- Sensor readings and hardware state (`SensorData` in `src/sensor_reader.py`).
Optional fields are `None` when the firmware does not report them. -/
structure SensorData where
  temperature_c : ℚ
  humidity_pct : ℚ
  co2_ppm : Int
  light_level : Int
  soil_moisture_pct : ℚ
  timestamp : String
  water_tank_ok : Option Bool := Option.none
  light_on : Option Bool := Option.none
  heater_on : Option Bool := Option.none
  heater_lockout : Option Bool := Option.none
  water_pump_on : Option Bool := Option.none
  circulation_on : Option Bool := Option.none
  water_pump_remaining_sec : Option Int := Option.none
  circulation_remaining_sec : Option Int := Option.none
  deriving Repr, DecidableEq

/-- The mock sensor snapshot returned by `read_sensors_mock` in
`src/sensor_reader.py` (timestamp shown as a fixed ISO string). -/
def read_sensors_mock : SensorData where
  temperature_c := 24.5
  humidity_pct := 62.0
  co2_ppm := 450
  light_level := 780
  soil_moisture_pct := 45.0
  timestamp := "2026-10-12T00:00:00+00:00"
  water_tank_ok := Option.some true
  light_on := Option.some false
  heater_on := Option.some false
  heater_lockout := Option.some false
  water_pump_on := Option.some false
  circulation_on := Option.some false
  water_pump_remaining_sec := Option.some 0
  circulation_remaining_sec := Option.some 0

/-- A proposed action dict, over the keys the validator reads: `"action"`,
`"duration_sec"`, the `"params"` sub-dict (whose only parameter in the data
model is `"duration_sec"`) and the `"_capped"` marker key that the validator
adds when it clamps a duration (`capped_flag = false` models an absent key). -/
structure ProposedAction where
  action : String := ""
  duration_sec : Option ℚ := Option.none
  params : List (String × ℚ) := []
  capped_flag : Bool := false
  deriving Repr, DecidableEq

/-- Result of validating a proposed action (`ValidationResult` in
`src/safety.py`). -/
structure ValidationResult where
  valid : Bool
  reason : String
  capped_action : ProposedAction
  deriving Repr, DecidableEq

/-- One `decisions.jsonl` record as the validator's history scans read it
(`src/logger.py` `log_decision` writes `timestamp`, `sensor_data`, `decision`,
`validation`, `executed`).  `timestamp` is the parsed `"timestamp"` string in
minutes of UTC time (`Option.none` models the value `_parse_timestamp` cannot
parse); `decision_action` is `entry["decision"]["action"]` (`""` when absent);
`executed` is the record's `"executed"` flag. -/
structure HistoryEntry where
  timestamp : Option ℚ := Option.none
  decision_action : String := ""
  executed : Option Bool := Option.none
  deriving Repr, DecidableEq

/-- Safety limits configuration.  Field defaults are the built-in defaults of
`_load_limits` in `src/safety.py`. -/
structure SafetyLimits where
  water_max_duration_sec : ℚ := 30
  water_min_interval_min : ℚ := 60
  water_daily_max_count : Nat := 6
  heater_max_temp_c : ℚ := 30.0
  heater_min_temp_c : ℚ := 10.0
  light_schedule_on : String := "06:00"
  light_schedule_off : String := "24:00"
  circulation_max_duration_sec : ℚ := 3600
  max_actions_per_hour : Nat := 10
  deriving Repr, DecidableEq

/-- `ALLOWED_ACTIONS` in `src/safety.py`: actions the AI may request. -/
def ALLOWED_ACTIONS : List String :=
  ["water", "light_on", "light_off", "heater_on", "heater_off",
   "circulation", "do_nothing", "notify_human"]

/-- `_actions_in_window` in `src/safety.py`: history entries whose parsed
timestamp lies in the trailing `minutes`-minute window ending at `now`
(entries with an unparseable timestamp are skipped; the boundary
`ts = now - minutes` is kept, since the code drops only `ts < cutoff`),
optionally restricted to one action type. -/
def actions_in_window (history : List HistoryEntry) (now minutes : ℚ)
    (action_type : Option String) : List HistoryEntry :=
  history.filter fun entry =>
    match entry.timestamp with
    | Option.none => false
    | Option.some ts =>
        decide (now - minutes ≤ ts) &&
          (match action_type with
           | Option.none => true
           | Option.some t => entry.decision_action == t)

/-- `_actions_today` in `src/safety.py`: history entries whose parsed timestamp
is at or after today's UTC midnight (`now.replace(hour=0, minute=0, ...)`),
optionally restricted to one action type. -/
def actions_today (history : List HistoryEntry) (now : ℚ)
    (action_type : Option String) : List HistoryEntry :=
  let today_start : ℚ := 1440 * (⌊now / 1440⌋ : ℤ)
  history.filter fun entry =>
    match entry.timestamp with
    | Option.none => false
    | Option.some ts =>
        decide (today_start ≤ ts) &&
          (match action_type with
           | Option.none => true
           | Option.some t => entry.decision_action == t)

/-- The params-flattening prologue of `validate_action`:
`capped = dict(action)` followed by `capped.setdefault(k, v)` for each entry
of the `"params"` sub-dict.  The only parameter in the data model is
`"duration_sec"`, so flattening fills `duration_sec` from `params` exactly
when it is absent at top level. -/
def flatten_params (a : ProposedAction) : ProposedAction :=
  { a with duration_sec := a.duration_sec.orElse fun _ => a.params.lookup "duration_sec" }

/-- Rejection reason of the global rate limit branch of `validate_action`. -/
def global_rate_limit_reason (n m : Nat) : String :=
  s!"Global rate limit reached: {n}/{m} actions in the last hour."

/-- The `real_actions` computation of `validate_action` (`src/safety.py`
lines 151–157): history entries of the trailing 60-minute window whose logged
`decision.action` is neither `do_nothing` nor `notify_human`. -/
def real_actions (history : List HistoryEntry) (now : ℚ) : List HistoryEntry :=
  (actions_in_window history now 60 Option.none).filter fun a =>
    !(a.decision_action == "do_nothing" || a.decision_action == "notify_human")

/-- `_validate_water` in `src/safety.py` (the human-readable sentence that the
interval rejection appends after its fixed prefix — echoing the raw timestamp
of the last watering — is elided; no property below inspects it). -/
def validate_water (action : ProposedAction) (limits : SafetyLimits)
    (history : List HistoryEntry) (now : ℚ) (sensor_data : SensorData) :
    ValidationResult :=
  if sensor_data.water_tank_ok = Option.some false then
    ⟨false, "Water tank level is LOW. Refill the tank before watering.", action⟩
  else
    let max_duration := limits.water_max_duration_sec
    let min_interval := limits.water_min_interval_min
    let daily_max := limits.water_daily_max_count
    let requested := action.duration_sec.getD 0
    if requested ≤ 0 then
      ⟨false, "Water duration_sec must be positive.", action⟩
    else
      let action1 :=
        if max_duration < requested then
          { action with duration_sec := Option.some max_duration, capped_flag := true }
        else action
      let recent_water := actions_in_window history now min_interval (Option.some "water")
      if recent_water.isEmpty = false then
        ⟨false, s!"Water rate limit: must wait {min_interval} min between waterings.",
          action1⟩
      else
        let today_water := actions_today history now (Option.some "water")
        let today_count := today_water.length
        if daily_max ≤ today_count then
          ⟨false, s!"Daily water limit reached: {today_count}/{daily_max} today.",
            action1⟩
        else
          ⟨true, "OK", action1⟩

/-- `_validate_heater` in `src/safety.py`. -/
def validate_heater (action : ProposedAction) (limits : SafetyLimits)
    (sensor_data : SensorData) : ValidationResult :=
  if action.action = "heater_off" then
    ⟨true, "OK", action⟩
  else if sensor_data.heater_lockout = Option.some true then
    ⟨false, "Heater lockout is active (firmware safety). Cannot turn heater on.", action⟩
  else
    let t := sensor_data.temperature_c
    let max_temp := limits.heater_max_temp_c
    if max_temp ≤ t then
      ⟨false, s!"Cannot turn heater on: current temp {t}C >= max {max_temp}C.", action⟩
    else
      ⟨true, "OK", action⟩

/-- `_validate_light` in `src/safety.py`.  `now_time` is the local wall clock
formatted `"HH:MM"`; the code compares such strings lexicographically. -/
def validate_light (action : ProposedAction) (limits : SafetyLimits)
    (now_time : String) : ValidationResult :=
  if action.action = "light_off" then
    ⟨true, "OK", action⟩
  else
    let schedule_on := limits.light_schedule_on
    let schedule_off := limits.light_schedule_off
    if now_time < schedule_on then
      ⟨false, s!"Too early for lights: current time {now_time}, earliest on at {schedule_on}.",
        action⟩
    else if schedule_off ≠ "24:00" ∧ schedule_off ≤ now_time then
      ⟨false, s!"Too late for lights: current time {now_time}, latest off at {schedule_off}.",
        action⟩
    else
      ⟨true, "OK", action⟩

/-- `_validate_circulation` in `src/safety.py`. -/
def validate_circulation (action : ProposedAction) (limits : SafetyLimits) :
    ValidationResult :=
  let max_duration := limits.circulation_max_duration_sec
  let requested := action.duration_sec.getD 0
  if requested ≤ 0 then
    ⟨false, "Circulation duration_sec must be positive.", action⟩
  else if max_duration < requested then
    ⟨true, "OK",
      { action with duration_sec := Option.some max_duration, capped_flag := true }⟩
  else
    ⟨true, "OK", action⟩

/-- `validate_action` in `src/safety.py`.  `emergency_stop` is the existence of
the configured stop file at validation time (`check_emergency_stop`); `now` is
the UTC wall clock in minutes; `now_time` is the local `"HH:MM"` wall clock
used only by the light schedule check.  The allowlist rejection reason keeps
the fixed prefix of the source message (the echo of the offending name and of
the sorted allowlist is elided; no property below inspects it). -/
def validate_action (emergency_stop : Bool) (limits : SafetyLimits)
    (now : ℚ) (now_time : String) (action : ProposedAction)
    (sensor_data : SensorData) (history : List HistoryEntry) : ValidationResult :=
  let capped := flatten_params action
  if emergency_stop then
    ⟨false, "Emergency stop file is present. All actions halted.", capped⟩
  else
    let action_type := action.action
    if (ALLOWED_ACTIONS.contains action_type) = false then
      ⟨false, "Action is not in the allowlist.", capped⟩
    else if action_type = "do_nothing" ∨ action_type = "notify_human" then
      ⟨true, "OK", capped⟩
    else
      let recent_real := real_actions history now
      if limits.max_actions_per_hour ≤ recent_real.length then
        ⟨false, global_rate_limit_reason recent_real.length limits.max_actions_per_hour,
          capped⟩
      else if action_type = "water" then
        validate_water capped limits history now sensor_data
      else if action_type = "heater_on" ∨ action_type = "heater_off" then
        validate_heater capped limits sensor_data
      else if action_type = "light_on" ∨ action_type = "light_off" then
        validate_light capped limits now_time
      else if action_type = "circulation" then
        validate_circulation capped limits
      else
        ⟨true, "OK", capped⟩

/-! Section: General lemmas about the validator -/

/-- Params-flattening only fills `duration_sec`; the action name is kept. -/
@[simp] lemma flatten_params_action (a : ProposedAction) :
    (flatten_params a).action = a.action := rfl

/-- `_validate_water` returns its argument dict unchanged, except that when the
requested duration exceeds the configured maximum it stores the clamped
duration and the `_capped` marker. -/
lemma validate_water_capped_action (a : ProposedAction) (limits : SafetyLimits)
    (history : List HistoryEntry) (now : ℚ) (sd : SensorData) :
    (validate_water a limits history now sd).capped_action = a ∨
      ((validate_water a limits history now sd).capped_action =
          { a with duration_sec := Option.some limits.water_max_duration_sec,
                   capped_flag := true } ∧
        limits.water_max_duration_sec < a.duration_sec.getD 0) := by
  simp only [validate_water]
  split_ifs with h1 h2 h3 h4 h5 <;>
    first
      | exact Or.inl rfl
      | exact Or.inr ⟨rfl, by assumption⟩

/-- `_validate_circulation` returns its argument dict unchanged, except for
clamping an oversized duration. -/
lemma validate_circulation_capped_action (a : ProposedAction) (limits : SafetyLimits) :
    (validate_circulation a limits).capped_action = a ∨
      ((validate_circulation a limits).capped_action =
          { a with duration_sec := Option.some limits.circulation_max_duration_sec,
                   capped_flag := true } ∧
        limits.circulation_max_duration_sec < a.duration_sec.getD 0) := by
  simp only [validate_circulation]
  split_ifs with h1 h2 <;>
    first
      | exact Or.inl rfl
      | exact Or.inr ⟨rfl, by assumption⟩

/-- `_validate_heater` never modifies the action dict. -/
lemma validate_heater_capped_action (a : ProposedAction) (limits : SafetyLimits)
    (sd : SensorData) : (validate_heater a limits sd).capped_action = a := by
  simp only [validate_heater]
  split_ifs <;> rfl

/-- `_validate_light` never modifies the action dict. -/
lemma validate_light_capped_action (a : ProposedAction) (limits : SafetyLimits)
    (now_time : String) : (validate_light a limits now_time).capped_action = a := by
  simp only [validate_light]
  split_ifs <;> rfl

/-! Section: Claim C1 — emergency stop rejects everything, before all other checks -/

/-- Claim C1. For every proposed action (including `do_nothing` and
`notify_human`), if the emergency-stop signal (the configured stop file) is
present at validation time, `validate_action` returns `valid = false`; the
returned reason is the emergency-stop message for *every* action string —
allowlisted or not, passthrough or not — which shows the emergency-stop check
runs before the allowlist and passthrough checks, so no action kind is
exempt. -/
theorem C1_emergency_stop_rejects_everything (limits : SafetyLimits) (now : ℚ)
    (now_time : String) (a : ProposedAction) (sd : SensorData)
    (history : List HistoryEntry) :
    (validate_action true limits now now_time a sd history).valid = false ∧
      (validate_action true limits now now_time a sd history).reason =
        "Emergency stop file is present. All actions halted." := by
  simp [validate_action]

/-! Section: Claim C4 — `capped_action` versus the input action -/

/-- Claim C4, counterexample. The claim says `capped_action` is identical to the
input action unless a numeric field was clamped, and equals the input exactly
when no clamping occurs.  But `validate_action` first flattens the `params`
sub-dict into the top level of the dict it returns: the action
`{"action": "water", "params": {"duration_sec": 8}}` (the documented Claude
format) is accepted with no clamping (8 ≤ 30), yet the returned
`capped_action` carries a top-level `duration_sec` key the input did not
have, so it is not identical to the input. -/
theorem C4_counterexample :
    (validate_action false {} 29800000 "12:00"
        { action := "water", params := [("duration_sec", 8)] }
        read_sensors_mock []).valid = true ∧
      (validate_action false {} 29800000 "12:00"
          { action := "water", params := [("duration_sec", 8)] }
          read_sensors_mock []).capped_action.capped_flag = false ∧
      (validate_action false {} 29800000 "12:00"
          { action := "water", params := [("duration_sec", 8)] }
          read_sensors_mock []).capped_action ≠
        { action := "water", params := [("duration_sec", 8)] } := by
  refine ⟨?_, ?_, ?_⟩ <;>
    norm_num +decide [validate_action, validate_water, real_actions, actions_in_window,
      actions_today, flatten_params, ALLOWED_ACTIONS, read_sensors_mock, List.filter,
      List.lookup]

/-- Claim C4, amended. For every proposed action, the `capped_action` field of
the result of `validate_action` is the input action with its `params`
sub-dict flattened into the top level (`setdefault` semantics), and is
identical to that flattened dict unless the requested duration exceeded the
configured water or circulation maximum, in which case `duration_sec` is
replaced by that maximum and the `_capped` marker is set. -/
theorem C4_capped_action_is_flattened_input (stop : Bool) (limits : SafetyLimits)
    (now : ℚ) (now_time : String) (a : ProposedAction) (sd : SensorData)
    (history : List HistoryEntry) :
    (validate_action stop limits now now_time a sd history).capped_action =
        flatten_params a ∨
      ((validate_action stop limits now now_time a sd history).capped_action =
          { flatten_params a with
              duration_sec := Option.some limits.water_max_duration_sec,
              capped_flag := true } ∧
        limits.water_max_duration_sec < (flatten_params a).duration_sec.getD 0) ∨
      ((validate_action stop limits now now_time a sd history).capped_action =
          { flatten_params a with
              duration_sec := Option.some limits.circulation_max_duration_sec,
              capped_flag := true } ∧
        limits.circulation_max_duration_sec < (flatten_params a).duration_sec.getD 0) := by
  simp only [validate_action]
  split_ifs <;>
    first
      | exact Or.inl rfl
      | (rcases validate_water_capped_action (flatten_params a) limits history now sd with
            h | ⟨h, hlt⟩
         · exact Or.inl h
         · exact Or.inr (Or.inl ⟨h, hlt⟩))
      | exact Or.inl (validate_heater_capped_action _ _ _)
      | exact Or.inl (validate_light_capped_action _ _ _)
      | (rcases validate_circulation_capped_action (flatten_params a) limits with
            h | ⟨h, hlt⟩
         · exact Or.inl h
         · exact Or.inr (Or.inr ⟨h, hlt⟩))

/-! Section: Claim C2 — the water minimum-interval lock and non-executed entries -/

/-- Claim C2. The claim (and the repository's own test
`test_water_not_locked_when_previous_was_blocked`) requires that a history
entry for a water decision that was *not executed* (`executed = false`) must
not trigger the minimum-interval lock.  The code disagrees:
`_actions_in_window` filters only on the parsed timestamp and on
`decision.action`, never reading the record's `executed` flag, so a water
request made 15 minutes after a *rejected* water decision is refused
(default `min_interval_min = 60`), and flipping the entry's `executed` flag
changes nothing. -/
theorem C2_non_executed_water_entry_still_locks :
    (validate_action false {} 29800000 "12:00"
        { action := "water", duration_sec := Option.some 10 } read_sensors_mock
        [{ timestamp := Option.some (29800000 - 15), decision_action := "water",
           executed := Option.some false }]).valid = false ∧
      validate_action false {} 29800000 "12:00"
          { action := "water", duration_sec := Option.some 10 } read_sensors_mock
          [{ timestamp := Option.some (29800000 - 15), decision_action := "water",
             executed := Option.some false }] =
        validate_action false {} 29800000 "12:00"
            { action := "water", duration_sec := Option.some 10 } read_sensors_mock
            [{ timestamp := Option.some (29800000 - 15), decision_action := "water",
               executed := Option.some true }] := by
  constructor <;>
    norm_num +decide [validate_action, validate_water, real_actions, actions_in_window,
      actions_today, flatten_params, ALLOWED_ACTIONS, read_sensors_mock, List.filter]

/-! Section: Claim C5 — oversized water durations are capped, not rejected -/

/-- Claim C5. A water action whose requested duration exceeds the configured
`max_duration_sec` is accepted with the duration clamped to the maximum
(capping, not rejection), whenever the surrounding checks pass: the stop
file is absent, the tank is not reported low, the configured maximum is
positive, no water entry lies in the minimum-interval window, the daily
count is below the maximum, and the global hourly limit is not yet
reached. -/
theorem C5_oversized_water_duration_capped (limits : SafetyLimits) (now : ℚ)
    (now_time : String) (a : ProposedAction) (sd : SensorData)
    (history : List HistoryEntry)
    (hact : a.action = "water")
    (htank : sd.water_tank_ok ≠ Option.some false)
    (hmax : 0 < limits.water_max_duration_sec)
    (hreq : limits.water_max_duration_sec < (flatten_params a).duration_sec.getD 0)
    (hrate : (real_actions history now).length < limits.max_actions_per_hour)
    (hwindow : actions_in_window history now limits.water_min_interval_min
        (Option.some "water") = [])
    (hdaily : (actions_today history now (Option.some "water")).length <
        limits.water_daily_max_count) :
    (validate_action false limits now now_time a sd history).valid = true ∧
      (validate_action false limits now now_time a sd history).capped_action.duration_sec =
        Option.some limits.water_max_duration_sec := by
  have hflat : (flatten_params a).action = "water" := hact
  have hreq0 : ¬((flatten_params a).duration_sec.getD 0 ≤ 0) := by
    push_neg
    exact lt_trans hmax hreq
  constructor <;>
    simp [validate_action, validate_water, hact, hflat, htank, hreq, hreq0,
      Nat.not_le.mpr hrate, Nat.not_le.mpr hdaily, hwindow, ALLOWED_ACTIONS,
      List.isEmpty_nil]

/-- Claim C5, witness. Concrete instance: requested 60 s against the default
30 s maximum, mock sensors, empty history. -/
theorem C5_witness :
    (validate_action false {} 29800000 "12:00"
        { action := "water", duration_sec := Option.some 60 } read_sensors_mock []).valid =
        true ∧
      (validate_action false {} 29800000 "12:00"
          { action := "water", duration_sec := Option.some 60 }
          read_sensors_mock []).capped_action.duration_sec =
        Option.some ({} : SafetyLimits).water_max_duration_sec :=
  C5_oversized_water_duration_capped {} 29800000 "12:00"
    { action := "water", duration_sec := Option.some 60 } read_sensors_mock []
    rfl (by norm_num [read_sensors_mock]) (by norm_num)
    (by norm_num [flatten_params]) (by norm_num [real_actions, actions_in_window])
    (by norm_num [actions_in_window]) (by norm_num [actions_today])

/-! Section: Claim C6 — heater rules -/

/-- Claim C6. `heater_on` is rejected when the firmware lockout is reported
active, or when the current temperature is at or above the configured
maximum (the comparison is `>=`, so equality rejects); it is accepted when
the temperature is strictly below the maximum and no lockout is reported
active; `heater_off` is always accepted — all under a clear emergency stop
and an unexhausted global hourly limit. -/
theorem C6_heater_rules (limits : SafetyLimits) (now : ℚ) (now_time : String)
    (sd : SensorData) (history : List HistoryEntry) (a b : ProposedAction)
    (ha : a.action = "heater_on") (hb : b.action = "heater_off")
    (hrate : (real_actions history now).length < limits.max_actions_per_hour) :
    (validate_action false limits now now_time b sd history).valid = true ∧
      (sd.heater_lockout = Option.some true →
        (validate_action false limits now now_time a sd history).valid = false) ∧
      (limits.heater_max_temp_c ≤ sd.temperature_c →
        (validate_action false limits now now_time a sd history).valid = false) ∧
      (sd.temperature_c < limits.heater_max_temp_c →
        sd.heater_lockout ≠ Option.some true →
        (validate_action false limits now now_time a sd history).valid = true) := by
  refine ⟨?_, ?_, ?_, ?_⟩
  · simp +decide [validate_action, validate_heater, hb, ALLOWED_ACTIONS,
      Nat.not_le.mpr hrate]
  · intro hlock
    simp +decide [validate_action, validate_heater, ha, hlock, ALLOWED_ACTIONS,
      Nat.not_le.mpr hrate]
  · intro htemp
    by_cases hlock : sd.heater_lockout = Option.some true <;>
      simp +decide [validate_action, validate_heater, ha, hlock, htemp,
        ALLOWED_ACTIONS, Nat.not_le.mpr hrate]
  · intro htemp hlock
    simp +decide [validate_action, validate_heater, ha, hlock, not_le.mpr htemp,
      ALLOWED_ACTIONS, Nat.not_le.mpr hrate]

/-- Claim C6, witness. At exactly the default maximum temperature (30.0 °C)
`heater_on` is rejected, while `heater_off` is accepted against the same
reading; with 24.5 °C and lockout reported inactive, `heater_on` is
accepted. -/
theorem C6_witness :
    (validate_action false {} 29800000 "12:00" { action := "heater_off" }
        { read_sensors_mock with temperature_c := 30.0 } []).valid = true ∧
      (validate_action false {} 29800000 "12:00" { action := "heater_on" }
          { read_sensors_mock with temperature_c := 30.0 } []).valid = false ∧
      (validate_action false {} 29800000 "12:00" { action := "heater_on" }
          read_sensors_mock []).valid = true := by
  have h30 := C6_heater_rules {} 29800000 "12:00"
    { read_sensors_mock with temperature_c := 30.0 } [] { action := "heater_on" }
    { action := "heater_off" } rfl rfl (by norm_num [real_actions, actions_in_window])
  have hmock := C6_heater_rules {} 29800000 "12:00" read_sensors_mock []
    { action := "heater_on" } { action := "heater_off" } rfl rfl
    (by norm_num [real_actions, actions_in_window])
  refine ⟨h30.1, h30.2.2.1 (by norm_num [read_sensors_mock]), ?_⟩
  exact hmock.2.2.2 (by norm_num [read_sensors_mock]) (by norm_num [read_sensors_mock])

/-! Section: Claim C7 — the global hourly rate limit -/

/-- Claim C7. The global hourly rate limit counts exactly the history entries
whose parsed timestamp lies in the trailing 60 minutes and whose logged
`decision.action` is neither `do_nothing` nor `notify_human` (last
conjunct).  When that count has reached the configured hourly ceiling,
every newly proposed allowlisted non-passthrough action is rejected with
the global-rate-limit reason, while `do_nothing` and `notify_human`
proposed against the same history are still accepted. -/
theorem C7_global_rate_limit (limits : SafetyLimits) (now : ℚ) (now_time : String)
    (sd : SensorData) (history : List HistoryEntry) (a : ProposedAction)
    (hallow : a.action ∈ ALLOWED_ACTIONS)
    (hpass : a.action ≠ "do_nothing" ∧ a.action ≠ "notify_human")
    (hrate : limits.max_actions_per_hour ≤ (real_actions history now).length) :
    (validate_action false limits now now_time a sd history).valid = false ∧
      (validate_action false limits now now_time a sd history).reason =
        global_rate_limit_reason (real_actions history now).length
          limits.max_actions_per_hour ∧
      (∀ b : ProposedAction, b.action = "do_nothing" ∨ b.action = "notify_human" →
        (validate_action false limits now now_time b sd history).valid = true) ∧
      ∀ e : HistoryEntry, e ∈ real_actions history now ↔
        e ∈ history ∧ (∃ ts, e.timestamp = Option.some ts ∧ now - 60 ≤ ts) ∧
          e.decision_action ≠ "do_nothing" ∧ e.decision_action ≠ "notify_human" := by
  refine ⟨?_, ?_, ?_, ?_⟩
  · simp [validate_action, hallow, hpass.1, hpass.2, hrate]
  · simp [validate_action, hallow, hpass.1, hpass.2, hrate]
  · intro b hb
    rcases hb with hb | hb <;> simp +decide [validate_action, hb, ALLOWED_ACTIONS]
  · intro e
    obtain ⟨ts, da, ex⟩ := e
    cases ts <;>
      simp [real_actions, actions_in_window, List.mem_filter, decide_eq_true_eq,
        and_assoc]
    tauto

/-- Claim C7, witness. Scenario D: ten water entries logged in the last hour
against the default ceiling of 10 — an eleventh water request is rejected,
while `do_nothing` proposed against the same history is accepted. -/
theorem C7_witness :
    (validate_action false {} 29800000 "12:00"
        { action := "water", duration_sec := Option.some 5 } read_sensors_mock
        (List.map
          (fun i : ℚ =>
            { timestamp := Option.some (29800000 - i), decision_action := "water" })
          [1, 2, 3, 4, 5, 6, 7, 8, 9, 10])).valid = false ∧
      (validate_action false {} 29800000 "12:00" { action := "do_nothing" }
          read_sensors_mock
          (List.map
            (fun i : ℚ =>
              { timestamp := Option.some (29800000 - i), decision_action := "water" })
            [1, 2, 3, 4, 5, 6, 7, 8, 9, 10])).valid = true := by
  have h := C7_global_rate_limit {} 29800000 "12:00" read_sensors_mock
    (List.map
      (fun i : ℚ =>
        { timestamp := Option.some (29800000 - i), decision_action := "water" })
      [1, 2, 3, 4, 5, 6, 7, 8, 9, 10])
    { action := "water", duration_sec := Option.some 5 } (by decide)
    ⟨by decide, by decide⟩
    (by norm_num +decide [real_actions, actions_in_window, List.filter])
  exact ⟨h.1, h.2.2.1 { action := "do_nothing" } (Or.inl rfl)⟩

/-! Section: Claim C10 — unreported heater lockout does not block `heater_on` -/

/-- Claim C10. When the sensor reading does not report the firmware heater
lockout (`heater_lockout = None`, as in mock mode or with old firmware),
`validate_action` does not reject `heater_on` on lockout grounds: with the
temperature below the configured maximum the request is accepted.  Only an
explicitly reported lockout value of `true` blocks `heater_on`. -/
theorem C10_unreported_lockout_allows_heater (limits : SafetyLimits) (now : ℚ)
    (now_time : String) (sd : SensorData) (history : List HistoryEntry)
    (a : ProposedAction) (ha : a.action = "heater_on")
    (hlock : sd.heater_lockout = Option.none)
    (htemp : sd.temperature_c < limits.heater_max_temp_c)
    (hrate : (real_actions history now).length < limits.max_actions_per_hour) :
    (validate_action false limits now now_time a sd history).valid = true := by
  simp +decide [validate_action, validate_heater, ha, hlock, not_le.mpr htemp,
    ALLOWED_ACTIONS, Nat.not_le.mpr hrate]

/-- Claim C10, witness. Mock-style reading with the lockout field absent:
`heater_on` is accepted at 24.5 °C. -/
theorem C10_witness :
    (validate_action false {} 29800000 "12:00" { action := "heater_on" }
        { read_sensors_mock with heater_lockout := Option.none } []).valid = true :=
  C10_unreported_lockout_allows_heater {} 29800000 "12:00"
    { read_sensors_mock with heater_lockout := Option.none } []
    { action := "heater_on" } rfl rfl (by norm_num [read_sensors_mock])
    (by norm_num [real_actions, actions_in_window])

/-! Section: Claim C3 — the photograph-with-illumination step of `run_check` -/

/-- Python keyword-argument binding: a call written with keyword arguments
raises `TypeError` before the callee body runs unless every keyword names a
parameter of the callee. -/
def kwargs_bind (kwargs params : List String) : Bool :=
  kwargs.all fun k => params.contains k

/-- The parameters of `ActionExecutor.take_photo_with_light`
(`src/action_executor.py` lines 195–200), `self` aside. -/
def take_photo_with_light_params : List String :=
  ["output_path", "data_dir", "settle_time"]

/-- The keyword arguments `run_check` passes to `take_photo_with_light` in its
photo step (`src/plant_agent.py` lines 135–139). -/
def run_check_photo_call_kwargs : List String :=
  ["output_path", "data_dir", "photos_dir"]

/-- Claim C3. The claim says a failure in the photograph-with-illumination step
is non-fatal for `run_check`.  In the code as it stands the photo step never
even starts: `run_check` invokes `take_photo_with_light` with the keyword
argument `photos_dir`, which is not a parameter of `take_photo_with_light`,
so every cycle that attempts a photo raises `TypeError` at the call site,
with no enclosing `try`, and `run_check` propagates it. -/
theorem C3_photo_call_does_not_bind :
    kwargs_bind run_check_photo_call_kwargs take_photo_with_light_params = false ∧
      "photos_dir" ∈ run_check_photo_call_kwargs ∧
      "photos_dir" ∉ take_photo_with_light_params := by
  decide

/-! Section: The action executor (`src/action_executor.py`) -/

/-- The result of executing a single action via `farmctl.py`
(`ExecutionResult` in `src/action_executor.py`). -/
structure ExecutionResult where
  success : Bool
  action : String
  command : String
  output : String
  error : Option String
  dry_run : Bool
  timestamp : String
  deriving Repr, DecidableEq

/-- The Python value bound to the `"params"` key of an action dict handed to
`ActionExecutor.execute`.  `pynone` models JSON `null` / Python `None` (or
any other non-dict value, on which `.get` raises `AttributeError`). -/
inductive PyParams where
  | dict (entries : List (String × ℚ))
  | pynone
  deriving Repr, DecidableEq

/-- A Python exception escaping a modelled call. -/
inductive PyExc where
  | attributeError
  deriving Repr, DecidableEq

/-- Outcome of the one `subprocess.run` call inside `_run_farmctl`: the
bridge process exits with a code and output streams, times out, is missing,
or fails at the OS level. -/
inductive BridgeOutcome where
  | exited (returncode : Int) (stdout : String) (stderr : String)
  | timedOut
  | notFound
  | osError (msg : String)
  deriving Repr, DecidableEq

/-- `ActionExecutor._run_farmctl`: normalizes every bridge outcome into a
`(success, output-or-error)` pair — non-zero exit, timeout, missing
executable and OS errors all become failure messages, never exceptions
(stream stripping is elided). -/
def run_farmctl (farmctl_path : String) (timeout : Nat) (b : BridgeOutcome) :
    Bool × String :=
  match b with
  | BridgeOutcome.exited code out err =>
      if code ≠ 0 then (false, s!"farmctl.py exited with code {code}: {err}")
      else (true, out)
  | BridgeOutcome.timedOut => (false, s!"farmctl.py timed out after {timeout}s")
  | BridgeOutcome.notFound => (false, s!"farmctl.py not found at: {farmctl_path}")
  | BridgeOutcome.osError m => (false, s!"OS error calling farmctl.py: {m}")

/-- `_NOOP_ACTIONS` in `src/action_executor.py`. -/
def NOOP_ACTIONS : List String := ["do_nothing", "notify_human"]

/-- `p.get(key, default)` on the params value; raises `AttributeError` when
the value is not a dict. -/
def py_params_get (p : PyParams) (key : String) (default : ℚ) :
    Except PyExc ℚ :=
  match p with
  | PyParams.dict entries => Except.ok ((entries.lookup key).getD default)
  | PyParams.pynone => Except.error PyExc.attributeError

/-- `_ACTION_MAP` in `src/action_executor.py`: maps an action name to the
`farmctl.py` argument list (`Option.none` = unknown action).  The `water`
and `circulation` builders read `duration_sec` from the params value and so
raise when it is not a dict. -/
def build_args (name : String) (p : PyParams) :
    Option (Except PyExc (List String)) :=
  if name = "water" then
    Option.some ((py_params_get p "duration_sec" 5).map fun d =>
      ["pump", "on", "--sec", toString d])
  else if name = "light_on" then Option.some (Except.ok ["light", "on"])
  else if name = "light_off" then Option.some (Except.ok ["light", "off"])
  else if name = "heater_on" then Option.some (Except.ok ["heater", "on"])
  else if name = "heater_off" then Option.some (Except.ok ["heater", "off"])
  else if name = "circulation" then
    Option.some ((py_params_get p "duration_sec" 30).map fun d =>
      ["circulation", "on", "--sec", toString d])
  else
    Option.none

/-- `ActionExecutor.execute`: no-op actions succeed without touching the
bridge; unknown actions yield a failure result; otherwise the argument
builder runs (its `AttributeError` propagates), then either the dry-run
result is returned or the bridge outcome is normalized by `_run_farmctl`.
`now` is the ISO timestamp taken at entry; `bridge` is the outcome the one
bridge invocation would have. -/
def execute (farmctl_path : String) (dry_run : Bool) (now : String)
    (bridge : BridgeOutcome) (action_name : String) (params : PyParams) :
    Except PyExc ExecutionResult :=
  if NOOP_ACTIONS.contains action_name then
    Except.ok
      ⟨true, action_name, "", s!"{action_name}: no hardware command required",
        Option.none, dry_run, now⟩
  else
    match build_args action_name params with
    | Option.none =>
        Except.ok
          ⟨false, action_name, "", "", Option.some s!"Unknown action: {action_name}",
            dry_run, now⟩
    | Option.some (Except.error e) => Except.error e
    | Option.some (Except.ok args) =>
        let joined := String.intercalate " " args
        let command_str := s!"python3 {farmctl_path} {joined}"
        if dry_run then
          Except.ok
            ⟨true, action_name, command_str, s!"[DRY-RUN] {command_str}",
              Option.none, true, now⟩
        else
          let result := run_farmctl farmctl_path 30 bridge
          Except.ok
            ⟨result.1, action_name, command_str,
              if result.1 then result.2 else "",
              if result.1 then Option.none else Option.some result.2,
              false, now⟩

/-- With a dict params value the argument builder never raises: it is either
unknown or returns an argument list. -/
lemma build_args_dict_total (name : String) (es : List (String × ℚ)) :
    build_args name (PyParams.dict es) = Option.none ∨
      ∃ args, build_args name (PyParams.dict es) = Option.some (Except.ok args) := by
  unfold build_args py_params_get
  split_ifs <;> simp [Except.map]

/-! Section: Claim C9 — `ActionExecutor.execute` and exceptions -/

/-- Claim C9, counterexample. The claim says `execute` never propagates an
exception for *every* input action dict.  But for the dict
`{"action": "water", "params": None}` the water argument builder evaluates
`params.get("duration_sec", 5)` on `None`, raising `AttributeError` outside
the `try` of `_run_farmctl`, and `execute` propagates it (same for any
non-dict params value, in dry-run and live mode alike). -/
theorem C9_counterexample :
    execute "/opt/farm/farmctl.py" false "2026-10-12T00:00:00+00:00"
        (BridgeOutcome.exited 0 "ok" "") "water" PyParams.pynone =
      Except.error PyExc.attributeError := by
  rfl

/-- Claim C9, amended. For every input action dict whose `params` value is a
dict, `execute` returns an `ExecutionResult` and never propagates an
exception; moreover (1) the no-op actions `do_nothing`/`notify_human` return
success without invoking the bridge (the result does not depend on the
bridge outcome and its command string is empty); (2) unknown action names
return a failure result rather than throwing; (3) in live mode a non-zero
exit, a timeout, a missing executable, and an OS-level invocation error each
produce a failure result carrying the corresponding descriptive error
message. -/
theorem C9_execute_total_for_dict_params :
    (∀ (path : String) (dry : Bool) (now : String) (b : BridgeOutcome)
        (name : String) (es : List (String × ℚ)),
      ∃ r, execute path dry now b name (PyParams.dict es) = Except.ok r) ∧
    (∀ (path : String) (dry : Bool) (now : String) (b1 b2 : BridgeOutcome)
        (p : PyParams),
      execute path dry now b1 "do_nothing" p = execute path dry now b2 "do_nothing" p ∧
      execute path dry now b1 "notify_human" p =
        execute path dry now b2 "notify_human" p ∧
      execute path dry now b1 "do_nothing" p =
        Except.ok
          ⟨true, "do_nothing", "", "do_nothing: no hardware command required",
            Option.none, dry, now⟩) ∧
    (∀ (path : String) (dry : Bool) (now : String) (b : BridgeOutcome)
        (p : PyParams) (name : String),
      name ∉ NOOP_ACTIONS → build_args name p = Option.none →
      execute path dry now b name p =
        Except.ok
          ⟨false, name, "", "", Option.some s!"Unknown action: {name}", dry, now⟩) ∧
    (∀ (path now name : String) (es : List (String × ℚ)) (args : List String),
      name ∉ NOOP_ACTIONS →
      build_args name (PyParams.dict es) = Option.some (Except.ok args) →
      (∀ (code : Int) (out err : String), code ≠ 0 →
        ∃ r, execute path false now (BridgeOutcome.exited code out err) name
              (PyParams.dict es) = Except.ok r ∧
          r.success = false ∧
          r.error = Option.some s!"farmctl.py exited with code {code}: {err}") ∧
      (∃ r, execute path false now BridgeOutcome.timedOut name (PyParams.dict es) =
            Except.ok r ∧
        r.success = false ∧
        r.error = Option.some "farmctl.py timed out after 30s") ∧
      (∃ r, execute path false now BridgeOutcome.notFound name (PyParams.dict es) =
            Except.ok r ∧
        r.success = false ∧
        r.error = Option.some s!"farmctl.py not found at: {path}") ∧
      (∀ m : String,
        ∃ r, execute path false now (BridgeOutcome.osError m) name
              (PyParams.dict es) = Except.ok r ∧
          r.success = false ∧
          r.error = Option.some s!"OS error calling farmctl.py: {m}")) := by
  refine ⟨?_, ?_, ?_, ?_⟩
  · intro path dry now b name es
    by_cases hn : name ∈ NOOP_ACTIONS
    · simp [execute, hn]
    · rcases build_args_dict_total name es with h | ⟨args, h⟩
      · simp [execute, hn, h]
      · by_cases hd : dry = true <;> simp [execute, hn, h, hd]
  · intro path dry now b1 b2 p
    refine ⟨by simp +decide [execute], by simp +decide [execute],
      by simp +decide [execute]⟩
  · intro path dry now b p name hn hb
    simp [execute, hn, hb]
  · intro path now name es args hn hb
    refine ⟨?_, ?_, ?_, ?_⟩
    · intro code out err hcode
      simp [execute, hn, hb, run_farmctl, hcode]
    · simp [execute, hn, hb, run_farmctl]
      decide
    · simp [execute, hn, hb, run_farmctl]
    · intro m
      simp [execute, hn, hb, run_farmctl]

/-- Claim C9, witness. Concrete instances: a live timed-out `water` call yields
a failure result with the timeout message, and the unknown action
`self_destruct` yields a failure result rather than an exception. -/
theorem C9_witness :
    (∃ r, execute "/opt/farm/farmctl.py" false "t0" BridgeOutcome.timedOut "water"
          (PyParams.dict [("duration_sec", 8)]) = Except.ok r ∧
      r.success = false ∧ r.error = Option.some "farmctl.py timed out after 30s") ∧
    execute "/opt/farm/farmctl.py" false "t0" BridgeOutcome.timedOut "self_destruct"
        PyParams.pynone =
      Except.ok
        ⟨false, "self_destruct", "", "", Option.some "Unknown action: self_destruct",
          false, "t0"⟩ := by
  constructor
  · exact (C9_execute_total_for_dict_params.2.2.2 "/opt/farm/farmctl.py" "t0" "water"
      [("duration_sec", 8)] ["pump", "on", "--sec", "8"] (by decide) (by rfl)).2.1
  · have h := C9_execute_total_for_dict_params.2.2.1 "/opt/farm/farmctl.py" false "t0"
      BridgeOutcome.timedOut PyParams.pynone "self_destruct" (by decide) (by rfl)
    simpa using h

/-! Section: Soil-moisture calibration (`src/sensor_reader.py`) -/

/-- `SOIL_CAL_LOG_SLOPE` in `src/sensor_reader.py`. -/
def SOIL_CAL_LOG_SLOPE : ℝ := -0.00258653

/-- `SOIL_CAL_LOG_INTERCEPT` in `src/sensor_reader.py`. -/
def SOIL_CAL_LOG_INTERCEPT : ℝ := 4.91733458

/-- `_soil_adc_to_pct` in `src/sensor_reader.py`:
`exp(SOIL_CAL_LOG_SLOPE * adc + SOIL_CAL_LOG_INTERCEPT)` clamped to
`[0, 100]` (Python float arithmetic idealized as real arithmetic; the
out-of-range log warnings do not affect the value and are elided). -/
noncomputable def soil_adc_to_pct (adc : ℝ) : ℝ :=
  max 0 (min 100 (Real.exp (SOIL_CAL_LOG_SLOPE * adc + SOIL_CAL_LOG_INTERCEPT)))

/-- At the wet calibration endpoint the exponent is `3.90858788`, and the
curve value is below `e^4 < 54.6`. -/
lemma soil_exp_390_lt :
    Real.exp (SOIL_CAL_LOG_SLOPE * 390 + SOIL_CAL_LOG_INTERCEPT) < 54.6 := by
  have harg : SOIL_CAL_LOG_SLOPE * 390 + SOIL_CAL_LOG_INTERCEPT < 4 := by
    unfold SOIL_CAL_LOG_SLOPE SOIL_CAL_LOG_INTERCEPT
    norm_num
  have h1 : Real.exp (SOIL_CAL_LOG_SLOPE * 390 + SOIL_CAL_LOG_INTERCEPT) <
      Real.exp 4 := Real.exp_lt_exp.mpr harg
  have h2 : Real.exp 4 = Real.exp 1 ^ 4 := by
    rw [← Real.exp_nat_mul]
    norm_num
  have h3 : Real.exp 1 ^ 4 < 2.7182818286 ^ 4 :=
    pow_lt_pow_left₀ Real.exp_one_lt_d9 (Real.exp_pos 1).le (by norm_num)
  have h4 : (2.7182818286 : ℝ) ^ 4 < 54.6 := by norm_num
  linarith

/-- At the dry calibration endpoint the exponent is `2.79120692`, and the
curve value is below `(e^{0.7})^4 < 16.8` (Taylor bound on `e^{0.7}`). -/
lemma soil_exp_822_lt :
    Real.exp (SOIL_CAL_LOG_SLOPE * 822 + SOIL_CAL_LOG_INTERCEPT) < 16.8 := by
  have harg : SOIL_CAL_LOG_SLOPE * 822 + SOIL_CAL_LOG_INTERCEPT < 2.8 := by
    unfold SOIL_CAL_LOG_SLOPE SOIL_CAL_LOG_INTERCEPT
    norm_num
  have h1 : Real.exp (SOIL_CAL_LOG_SLOPE * 822 + SOIL_CAL_LOG_INTERCEPT) <
      Real.exp 2.8 := Real.exp_lt_exp.mpr harg
  have h28 : (2.8 : ℝ) = (4 : ℕ) * 0.7 := by norm_num
  have h2 : Real.exp 2.8 = Real.exp 0.7 ^ 4 := by
    rw [h28, Real.exp_nat_mul]
  have hb := @Real.exp_bound' 0.7 (by norm_num) (by norm_num) 3 (by norm_num)
  norm_num [Finset.sum_range_succ, Nat.factorial] at hb
  have h3 : Real.exp 0.7 ^ 4 ≤ 2.0213 ^ 4 :=
    pow_le_pow_left₀ (Real.exp_pos 0.7).le (by linarith) 4
  have h4 : (2.0213 : ℝ) ^ 4 < 16.8 := by norm_num
  linarith

/-- The calibrated value at ADC 390 is below 55.89. -/
lemma soil_390_lt : soil_adc_to_pct 390 < 55.89 := by
  unfold soil_adc_to_pct
  have h := soil_exp_390_lt
  have hmin : min 100 (Real.exp (SOIL_CAL_LOG_SLOPE * 390 + SOIL_CAL_LOG_INTERCEPT)) ≤
      Real.exp (SOIL_CAL_LOG_SLOPE * 390 + SOIL_CAL_LOG_INTERCEPT) := min_le_right _ _
  exact max_lt (by norm_num) (by linarith)

/-- The calibrated value at ADC 822 is below 18.21. -/
lemma soil_822_lt : soil_adc_to_pct 822 < 18.21 := by
  unfold soil_adc_to_pct
  have h := soil_exp_822_lt
  have hmin : min 100 (Real.exp (SOIL_CAL_LOG_SLOPE * 822 + SOIL_CAL_LOG_INTERCEPT)) ≤
      Real.exp (SOIL_CAL_LOG_SLOPE * 822 + SOIL_CAL_LOG_INTERCEPT) := min_le_right _ _
  exact max_lt (by norm_num) (by linarith)

/-! Section: Claim C8 — the soil calibration curve -/

/-- Claim C8, counterexample. The claim asserts monotonicity, the `[0, 100]`
range, *and* that the curve reproduces the two measured calibration anchors
(55.99 at ADC 390 and 18.31 at ADC 822) to within ±0.1.  The last part is
false: the coefficients are a least-squares fit, not an interpolation — the
curve value at ADC 390 is `exp(3.90858788) ≈ 49.8`, more than 6 points below
the 55.99 anchor (just as the code comments warn: the curve "underestimates
by up to ~10 percentage points" at the wet end). -/
theorem C8_counterexample :
    ¬((∀ a b : ℝ, a ≤ b → soil_adc_to_pct b ≤ soil_adc_to_pct a) ∧
      (∀ x : ℝ, 0 ≤ soil_adc_to_pct x ∧ soil_adc_to_pct x ≤ 100) ∧
      |soil_adc_to_pct 390 - 55.99| ≤ 0.1 ∧ |soil_adc_to_pct 822 - 18.31| ≤ 0.1) := by
  intro h
  have h390 := soil_390_lt
  have habs := h.2.2.1
  rw [abs_le] at habs
  linarith [habs.1]

/-- Claim C8, amended. `_soil_adc_to_pct` is monotonically non-increasing in the
raw ADC code over the whole real line and always returns a value in
`[0, 100]`; however, at the two measured calibration endpoints the fitted
curve does *not* reproduce the anchor percentages: its value at ADC 390 is
more than 0.1 below 55.99 and its value at ADC 822 is more than 0.1 below
18.31. -/
theorem C8_soil_calibration_properties :
    (∀ a b : ℝ, a ≤ b → soil_adc_to_pct b ≤ soil_adc_to_pct a) ∧
      (∀ x : ℝ, 0 ≤ soil_adc_to_pct x ∧ soil_adc_to_pct x ≤ 100) ∧
      0.1 < 55.99 - soil_adc_to_pct 390 ∧ 0.1 < 18.31 - soil_adc_to_pct 822 := by
  refine ⟨?_, ?_, ?_, ?_⟩
  · intro a b hab
    unfold soil_adc_to_pct
    have hs : SOIL_CAL_LOG_SLOPE * b + SOIL_CAL_LOG_INTERCEPT ≤
        SOIL_CAL_LOG_SLOPE * a + SOIL_CAL_LOG_INTERCEPT := by
      unfold SOIL_CAL_LOG_SLOPE SOIL_CAL_LOG_INTERCEPT
      linarith
    exact max_le_max (le_refl 0) (min_le_min (le_refl 100) (Real.exp_le_exp.mpr hs))
  · intro x
    exact ⟨le_max_left _ _, max_le (by norm_num) (min_le_left _ _)⟩
  · linarith [soil_390_lt]
  · linarith [soil_822_lt]

/-- Claim C8, witness. Concrete instance of the amended claim: the calibrated
percentage does not increase from ADC 390 to ADC 391, and the value at the
wet endpoint misses the 55.99 anchor by more than 0.1. -/
theorem C8_witness :
    soil_adc_to_pct 391 ≤ soil_adc_to_pct 390 ∧
      0.1 < 55.99 - soil_adc_to_pct 390 :=
  ⟨C8_soil_calibration_properties.1 390 391 (by norm_num),
    C8_soil_calibration_properties.2.2.1⟩

end PlantOps
